import Mathlib

/-!
A shallow embedding of the `uninews_crawler` package (`crawler.py`, `cli.py`)
and proofs about it.  Pure Python functions become Lean functions; the two
external effects — HTTP fetching (`requests`) and HTML parsing
(`BeautifulSoup`) — are abstracted as function-valued parameters (`World`,
`Soup`): a fetch is a map from URL to optional page text, a parsed document
is a map from CSS selector to matching anchors / first-match text.
`urllib.parse.urlparse` / `urljoin` are modelled from their documented
behaviour, simplified to the URL shapes the crawler exercises (no
dot-segment normalisation, no query/fragment splitting).  Python strings
are Lean `String`s; `str.lower`, slicing and the `in` substring test are
given explicit executable models over the character list.
-/

set_option maxRecDepth 10000

namespace UniNews

/-! ## Python string primitives -/

/-- Model of Python `str.lower()`: lower-case each character
(`Char.toLower` is the identity on non-ASCII characters, which matches
`str.lower` on the Chinese keywords used here). -/
def strLower (s : String) : String := String.mk (s.data.map Char.toLower)

/-- Model of Python `s[:n]` for `n ≥ 0`: the first `n` characters. -/
def strTake (s : String) (n : Nat) : String := String.mk (s.data.take n)

/-- `hasPre p l` decides whether `p` is an initial segment of `l`. -/
def hasPre : List Char → List Char → Bool
  | [], _ => true
  | _ :: _, [] => false
  | p :: ps, c :: cs => p == c && hasPre ps cs

/-- `hasSubstr pat l` decides whether `pat` occurs contiguously in `l`. -/
def hasSubstr (pat : List Char) : List Char → Bool
  | [] => hasPre pat []
  | c :: tl => hasPre pat (c :: tl) || hasSubstr pat tl

/-- Model of Python `pat in s` on strings (substring containment). -/
def strIn (pat s : String) : Bool := hasSubstr pat.data s.data

/-- Model of Python `lst[:n]` where `n` may be negative
(`lst[:-k]` drops the last `k` elements). -/
def pySlice (n : Int) (l : List α) : List α :=
  if 0 ≤ n then l.take n.toNat else l.take (l.length - (-n).toNat)

/-! ## Module constants of `crawler.py` -/

def DEFAULT_KEYWORDS : List String :=
  ["合作", "校企", "企业合作", "产学研", "战略合作", "签约", "校企合作", "产业合作",
   "企业捐赠", "合作办学", "联合实验室", "cooperation", "partnership", "collaboration"]

def DEFAULT_SITES : List (String × String) :=
  [("清华大学", "https://www.tsinghua.edu.cn/"),
   ("北京大学", "https://www.pku.edu.cn/"),
   ("浙江大学", "https://www.zju.edu.cn/"),
   ("复旦大学", "https://www.fudan.edu.cn/"),
   ("上海交通大学", "https://www.sjtu.edu.cn/")]

def NEWS_LIST_PATTERNS : List String :=
  ["news/", "article/", "info/", "content/", "xxgg/", "xwdt/"]

def NEWS_CONTENT_SELECTORS_title : List String :=
  ["h1", ".article-title", ".news-title", "title"]

def NEWS_CONTENT_SELECTORS_time : List String :=
  [".publish-time", ".article-time", ".news-time", "time"]

def NEWS_CONTENT_SELECTORS_body : List String :=
  [".article-content", ".news-content", ".content", "article"]

def NEWS_LINK_SELECTORS : List String :=
  ["a[href*=\"news\"]", "a[href*=\"article\"]", "a[href*=\"info\"]",
   "a[href*=\"content\"]",
   ".news-list a", ".article-list a", ".news-item a", ".list-item a"]

/-! ## `CrawlConfig` (dataclass, `crawler.py` lines 46–56) -/

structure CrawlConfig where
  timeout : Int := 10
  delay_min : Rat := 1
  delay_max : Rat := 3
  max_per_site : Int := 10
  user_agent : String :=
    "Mozilla/5.0 (Macintosh; Intel Mac OS X 10_15_7) AppleWebKit/537.36 (KHTML, like Gecko) Chrome/124.0 Safari/537.36"
deriving DecidableEq

/-- The configuration invariant stated by the spec (section 3):
`delay_min ≤ delay_max`, `delay_max ≥ 0`, `timeout > 0`, `max_per_site ≥ 0`. -/
def configInvariant (c : CrawlConfig) : Prop :=
  c.delay_min ≤ c.delay_max ∧ 0 ≤ c.delay_max ∧ 0 < c.timeout ∧ 0 ≤ c.max_per_site

instance (c : CrawlConfig) : Decidable (configInvariant c) := by
  unfold configInvariant; infer_instance

/-- `CrawlConfig` construction as performed by `cli.py` `main` (lines 51–56):
the four CLI arguments are passed through with no validation. -/
def mkConfigFromArgs (timeout : Int) (dmin dmax : Rat) (mps : Int) : CrawlConfig :=
  { timeout := timeout, delay_min := dmin, delay_max := dmax, max_per_site := mps }

/-! ## URL model (`urllib.parse`) -/

structure UrlParts where
  scheme : String
  netloc : String
  path : String
deriving DecidableEq

/-- Scan `scheme:` off the front of a URL: the accumulator holds the scheme
characters seen so far, reversed. -/
def schemeSplitAux (acc : List Char) : List Char → Option (List Char × List Char)
  | [] => none
  | c :: cs =>
    if c = ':' then some (acc.reverse, cs)
    else if c.isAlphanum || c = '+' || c = '-' || c = '.' then schemeSplitAux (c :: acc) cs
    else none

def schemeSplit : List Char → Option (List Char × List Char)
  | [] => none
  | c :: cs => if c.isAlpha then schemeSplitAux [c] cs else none

/-- Modelled from `urllib.parse.urlparse`, reduced to the three components
the crawler reads: lower-cased scheme, network location, and the remainder
as an unsplit path. -/
def urlparse (url : String) : UrlParts :=
  let (scheme, rest) :=
    match schemeSplit url.data with
    | some (s, r) => (String.mk (s.map Char.toLower), r)
    | none => ("", url.data)
  match rest with
  | '/' :: '/' :: after =>
    let p : Char → Bool := fun c => !(c == '/' || c == '?' || c == '#')
    ⟨scheme, String.mk (after.takeWhile p), String.mk (after.dropWhile p)⟩
  | _ => ⟨scheme, "", String.mk rest⟩

/-- Characters of `path` up to and including the last `/` (the "directory"
of the reference-resolution merge); `/` when the path has no slash. -/
def lastSlashDir (path : List Char) : List Char :=
  let d := (path.reverse.dropWhile (fun c => !(c == '/'))).reverse
  if d.isEmpty then ['/'] else d

/-- Modelled from `urllib.parse.urljoin`, simplified to the reference
shapes the crawler produces: absolute references pass through, `//`- and
`/`-prefixed references take the base's scheme (and authority), other
relative references are merged onto the base path's directory. -/
def urljoin (base url : String) : String :=
  if url = "" then base
  else
    let u := urlparse url
    if u.scheme ≠ "" then url
    else
      let b := urlparse base
      match url.data with
      | '/' :: '/' :: _ => b.scheme ++ ":" ++ url
      | '/' :: _ => b.scheme ++ "://" ++ b.netloc ++ url
      | _ => b.scheme ++ "://" ++ b.netloc ++ String.mk (lastSlashDir b.path.data) ++ url

/-- `UniversityNewsCrawler._is_valid_url` (lines 75–81):
`bool(res.scheme and res.netloc)`. -/
def _is_valid_url (url : String) : Bool :=
  let res := urlparse url
  !(res.scheme == "") && !(res.netloc == "")

/-! ## Abstracted externals: parsed HTML and the network -/

/-- One `<a>` element as the crawler reads it: `a.get("href")`
(`none` when the attribute is absent) and `a.get_text(strip=True)`. -/
structure Anchor where
  href : Option String
  text : String
deriving DecidableEq

/-- A `BeautifulSoup` document, abstracted to the three queries the crawler
makes: `soup.select(sel)` restricted to anchors, the stripped text of
`soup.select_one(sel)` (`none` when no element matches, `some ""` when an
element matches but has empty text), and `soup.get_text(strip=True)`. -/
structure Soup where
  selectAnchors : String → List Anchor
  selectOneText : String → Option String
  pageText : String

/-- The external world a crawl runs against: `fetch` is
`UniversityNewsCrawler._get` (lines 83–91, `none` on any transport
failure), `parse` is `BeautifulSoup(html, "lxml")`, and `now` is the
formatted `datetime.now()` timestamp.  `time.sleep` and the random delay
have no effect on the produced rows and are not modelled. -/
structure World where
  fetch : String → Option String
  parse : String → Soup
  now : String

/-- One output record (the dict appended at lines 163–171). -/
structure Row where
  university : String
  title : String
  publish_time : String
  content : String
  url : String
  link_text : String
  crawl_time : String
deriving DecidableEq

/-! ## The crawler's pure helpers -/

/-- `UniversityNewsCrawler._contains_kw` (lines 93–97): false on `None` or
empty text, otherwise any keyword, lower-cased, occurs in the lower-cased
text. -/
def _contains_kw (keywords : List String) (text : Option String) : Bool :=
  match text with
  | none => false
  | some t =>
    if t = "" then false
    else keywords.any fun kw => strIn (strLower kw) (strLower t)

/-- The per-anchor body of the loop in `_extract_links` (lines 103–112):
skip an absent or empty href, resolve against the base URL, skip
resolutions without scheme and host, skip anchors with empty text. -/
def anchor_link (base_url : String) (a : Anchor) : Option (String × String) :=
  match a.href with
  | none => none
  | some href =>
    if href = "" then none
    else if _is_valid_url (urljoin base_url href) then
      if a.text = "" then none else some (urljoin base_url href, a.text)
    else none

/-- `UniversityNewsCrawler._extract_links` (lines 99–113): collect the
pairs over all selectors, then `list({...})` — deduplicate.  Python's set
gives an unspecified order; `List.dedup` realises one such order. -/
def _extract_links (soup : Soup) (base_url : String) : List (String × String) :=
  (NEWS_LINK_SELECTORS.flatMap fun sel =>
    (soup.selectAnchors sel).filterMap (anchor_link base_url)).dedup

/-- The local `pick` of `_extract_content` (lines 118–125): first selector
whose element exists and has non-empty stripped text; `""` otherwise. -/
def pick (soup : Soup) : List String → String
  | [] => ""
  | s :: rest =>
    match soup.selectOneText s with
    | none => pick soup rest
    | some txt => if txt = "" then pick soup rest else txt

/-- Line 129: body selectors, with `or soup.get_text(strip=True)` fallback. -/
def rawContent (soup : Soup) : String :=
  let body := pick soup NEWS_CONTENT_SELECTORS_body
  if body = "" then soup.pageText else body

/-- Lines 130–131: `if len(content) > 500: content = content[:500] + "..."`. -/
def pyTruncate (s : String) : String :=
  if 500 < s.length then strTake s 500 ++ "..." else s

structure ArticleData where
  title : String
  publish_time : String
  content : String
  url : String
deriving DecidableEq

/-- `UniversityNewsCrawler._extract_content` (lines 115–133). -/
def _extract_content (soup : Soup) (url : String) : ArticleData :=
  { title := pick soup NEWS_CONTENT_SELECTORS_title
    publish_time := pick soup NEWS_CONTENT_SELECTORS_time
    content := pyTruncate (rawContent soup)
    url := url }

/-! ## `crawl_site` (lines 136–172), split at the source's own seams -/

/-- Phase 1 of discovery (lines 141–146): for each listing-path pattern,
fetch `urljoin(base_url, pat)`; on success, if the raw page text passes the
keyword filter, extract its links. -/
def listing_candidates (w : World) (keywords : List String) (base_url : String) :
    List (String × String) :=
  NEWS_LIST_PATTERNS.flatMap fun pat =>
    match w.fetch (urljoin base_url pat) with
    | none => []
    | some html =>
      if _contains_kw keywords (some html) then _extract_links (w.parse html) base_url
      else []

/-- Phase 2 of discovery (lines 149–151): the homepage's links,
unconditionally. -/
def home_candidates (w : World) (base_url : String) : List (String × String) :=
  match w.fetch base_url with
  | none => []
  | some home => _extract_links (w.parse home) base_url

/-- Lines 154–155: deduplicate the candidate pool, keep the pairs whose
anchor text passes the keyword filter. -/
def site_filtered (w : World) (keywords : List String) (base_url : String) :
    List (String × String) :=
  ((listing_candidates w keywords base_url ++ home_candidates w base_url).dedup).filter
    fun p => _contains_kw keywords (some p.2)

/-- Line 158: the candidates actually visited, `filtered[:max_per_site]`. -/
def site_visited (w : World) (keywords : List String) (cfg : CrawlConfig)
    (base_url : String) : List (String × String) :=
  pySlice cfg.max_per_site (site_filtered w keywords base_url)

/-- The loop body of lines 158–172 for one candidate: fetch (skip on
failure), extract, assemble the row. -/
def visit_candidate (w : World) (name : String) (p : String × String) : Option Row :=
  match w.fetch p.1 with
  | none => none
  | some html =>
    let data := _extract_content (w.parse html) p.1
    some { university := name, title := data.title, publish_time := data.publish_time,
           content := data.content, url := data.url, link_text := p.2,
           crawl_time := w.now }

/-- `UniversityNewsCrawler.crawl_site` (lines 136–172), as the list of rows
it appends to `self.rows`. -/
def crawl_site (w : World) (keywords : List String) (cfg : CrawlConfig)
    (name base_url : String) : List Row :=
  (site_visited w keywords cfg base_url).filterMap (visit_candidate w name)

/-! ## `crawl` (lines 174–181) -/

/-- The `for`/`try`/`except` loop of `crawl` (lines 176–180), generic over
the per-site crawl `sc`: `sc name url` yields the rows the site call
appends before it returns or raises, and `some e` when it raises an
unhandled exception `e` (the pure `crawl_site` above never raises; the
abstraction realises the spec's "unexpected error" case).  Returns the
accumulated rows and the `logger.error("Error on %s: %s", ...)` log. -/
def crawl_loop (sc : String → String → List Row × Option String) :
    List (String × String) → List Row × List String
  | [] => ([], [])
  | (name, url) :: rest =>
    let r := sc name url
    let rec_rest := crawl_loop sc rest
    (r.1 ++ rec_rest.1,
     (match r.2 with
      | none => []
      | some e => ["Error on " ++ name ++ ": " ++ e]) ++ rec_rest.2)

/-- Line 175: `target = sites or self.sites` — Python truthiness, so an
empty mapping falls back to `self.sites` exactly like `None`. -/
def crawl_target (self_sites : List (String × String)) :
    Option (List (String × String)) → List (String × String)
  | none => self_sites
  | some s => if s.isEmpty then self_sites else s

/-- `UniversityNewsCrawler.crawl` (lines 174–181): dispatch the target
sites, run the loop with the real `crawl_site` (which, being pure here,
raises nothing), return the accumulated rows. -/
def crawl (w : World) (keywords : List String) (cfg : CrawlConfig)
    (self_sites : List (String × String)) (sites : Option (List (String × String))) :
    List Row :=
  (crawl_loop (fun name url => (crawl_site w keywords cfg name url, none))
    (crawl_target self_sites sites)).1

/-! ## Helper lemmas -/

/-- `hasPre p l` is true exactly when `l` starts with `p`. -/
theorem hasPre_iff : ∀ (p l : List Char), hasPre p l = true ↔ ∃ t, l = p ++ t
  | [], l => by simp [hasPre]
  | p :: ps, [] => by simp [hasPre]
  | p :: ps, c :: cs => by
    simp only [hasPre, Bool.and_eq_true, beq_iff_eq]
    constructor
    · rintro ⟨rfl, h⟩
      obtain ⟨t, rfl⟩ := (hasPre_iff ps cs).1 h
      exact ⟨t, rfl⟩
    · rintro ⟨t, h⟩
      injection h with h1 h2
      subst h1
      exact ⟨rfl, (hasPre_iff ps cs).2 ⟨t, h2⟩⟩

/-- `hasSubstr pat l` is true exactly when `pat` occurs contiguously in `l`. -/
theorem hasSubstr_iff : ∀ (pat l : List Char),
    hasSubstr pat l = true ↔ ∃ s t, l = s ++ (pat ++ t)
  | pat, [] => by
    simp only [hasSubstr, hasPre_iff]
    constructor
    · rintro ⟨t, h⟩
      exact ⟨[], t, h⟩
    · rintro ⟨s, t, h⟩
      rw [eq_comm, List.append_eq_nil] at h
      exact ⟨t, h.2.symm⟩
  | pat, c :: tl => by
    simp only [hasSubstr, Bool.or_eq_true, hasPre_iff, hasSubstr_iff pat tl]
    constructor
    · rintro (⟨t, h⟩ | ⟨s, t, h⟩)
      · exact ⟨[], t, h⟩
      · exact ⟨c :: s, t, by rw [h]; rfl⟩
    · rintro ⟨s, t, h⟩
      cases s with
      | nil => exact Or.inl ⟨t, by simpa using h⟩
      | cons a s' =>
        injection h with h1 h2
        exact Or.inr ⟨s', t, h2⟩

/-- If every selector in the list yields no element or an element with empty
text, `pick` returns the empty string. -/
def noText (soup : Soup) (s : String) : Prop :=
  soup.selectOneText s = none ∨ soup.selectOneText s = some ""

theorem pick_eq_empty (soup : Soup) : ∀ sels : List String,
    (∀ s ∈ sels, noText soup s) → pick soup sels = ""
  | [], _ => rfl
  | s :: rest, h => by
    have hs := h s (by simp)
    have hr := pick_eq_empty soup rest (fun x hx => h x (by simp [hx]))
    cases hs with
    | inl h1 => simp [pick, h1, hr]
    | inr h1 => simp [pick, h1, hr]

/-- A successful `anchor_link` result passed the `_is_valid_url` check. -/
theorem anchor_link_valid (base_url : String) (a : Anchor) (p : String × String)
    (h : anchor_link base_url a = some p) : _is_valid_url p.1 = true := by
  unfold anchor_link at h
  split at h
  · exact absurd h (by simp)
  · split at h
    · exact absurd h (by simp)
    · split at h
      next hvalid =>
        split at h
        · exact absurd h (by simp)
        · cases h
          exact hvalid
      · exact absurd h (by simp)

/-- `filterMap` over a list on which `f` always succeeds keeps the length. -/
theorem length_filterMap_of_isSome (f : α → Option β) : ∀ l : List α,
    (∀ x ∈ l, (f x).isSome) → (l.filterMap f).length = l.length
  | [], _ => rfl
  | a :: tl, h => by
    obtain ⟨b, hb⟩ := Option.isSome_iff_exists.1 (h a (by simp))
    rw [List.filterMap_cons, hb]
    simp [length_filterMap_of_isSome f tl (fun x hx => h x (by simp [hx]))]

/-- `visit_candidate` produces a row exactly when the fetch succeeds. -/
theorem visit_candidate_isSome (w : World) (name : String) (p : String × String)
    (h : (w.fetch p.1).isSome) : (visit_candidate w name p).isSome := by
  obtain ⟨html, hh⟩ := Option.isSome_iff_exists.1 h
  simp [visit_candidate, hh]

/-- The rows accumulated by the orchestrator loop are the concatenation of
the rows each site's crawl produced before returning or raising. -/
theorem crawl_loop_rows (sc : String → String → List Row × Option String) :
    ∀ sites : List (String × String),
      (crawl_loop sc sites).1 = (sites.map fun p => (sc p.1 p.2).1).flatten
  | [] => rfl
  | (name, url) :: rest => by
    simp [crawl_loop, crawl_loop_rows sc rest]

/-- Every site whose crawl raises contributes an error-log entry naming it. -/
theorem crawl_loop_log (sc : String → String → List Row × Option String) :
    ∀ sites : List (String × String), ∀ p ∈ sites, ∀ e, (sc p.1 p.2).2 = some e →
      ("Error on " ++ p.1 ++ ": " ++ e) ∈ (crawl_loop sc sites).2
  | [] => by simp
  | (name, url) :: rest => by
    intro p hp e he
    simp only [crawl_loop, List.mem_append]
    rcases List.mem_cons.1 hp with rfl | hmem
    · left
      rw [he]
      simp
    · right
      exact crawl_loop_log sc rest p hmem e he

/-! ## Claim theorems -/

/-- The spec-level substring relation: `p` occurs contiguously in `s`. -/
def SubstrOccurs (p s : String) : Prop :=
  ∃ l r : List Char, s.data = l ++ (p.data ++ r)

/-- Claim C4: `_contains_kw` returns false on absent (`None`) and on empty
text regardless of the keyword list, and on non-empty text it returns true
iff some keyword, lower-cased, occurs as a substring of the lower-cased
text. -/
theorem claim4_keyword_filter (keywords : List String) :
    _contains_kw keywords none = false ∧
    _contains_kw keywords (some "") = false ∧
    ∀ t : String, t ≠ "" →
      (_contains_kw keywords (some t) = true ↔
        ∃ kw ∈ keywords, SubstrOccurs (strLower kw) (strLower t)) := by
  refine ⟨rfl, rfl, fun t ht => ?_⟩
  simp only [_contains_kw, if_neg ht, List.any_eq_true, strIn, hasSubstr_iff, SubstrOccurs]

/-- Witness for C4 at the spec's own example:
`matches("Cooperation", ["COOPERATION"])`. -/
theorem claim4_keyword_instance :
    (_contains_kw ["COOPERATION"] (some "Cooperation") = true ↔
      ∃ kw ∈ ["COOPERATION"], SubstrOccurs (strLower kw) (strLower "Cooperation")) :=
  (claim4_keyword_filter ["COOPERATION"]).2.2 "Cooperation" (by decide)

/-- Claim C3: a raw body of at most 500 characters is returned unmodified;
a longer one becomes exactly its first 500 characters plus `"..."`. -/
theorem claim3_truncation (soup : Soup) (url : String) :
    ((rawContent soup).length ≤ 500 →
      (_extract_content soup url).content = rawContent soup) ∧
    (500 < (rawContent soup).length →
      (_extract_content soup url).content = strTake (rawContent soup) 500 ++ "...") := by
  constructor
  · intro h
    simp only [_extract_content, pyTruncate]
    rw [if_neg (by omega)]
  · intro h
    simp only [_extract_content, pyTruncate]
    rw [if_pos h]

def soupShortBody : Soup := ⟨fun _ => [], fun _ => none, "short body"⟩

def soupLongBody : Soup := ⟨fun _ => [], fun _ => none, String.mk (List.replicate 501 'a')⟩

/-- Witness for C3: one body under the cap, one over it. -/
theorem claim3_truncation_instance :
    (_extract_content soupShortBody "u").content = rawContent soupShortBody ∧
    (_extract_content soupLongBody "u").content =
      strTake (rawContent soupLongBody) 500 ++ "..." :=
  ⟨(claim3_truncation soupShortBody "u").1 (by decide),
   (claim3_truncation soupLongBody "u").2 (by decide)⟩

/-- Claim C7: `_extract_content` is total (it is a Lean function) and
degrades gracefully: the url field is always the input url, a title/time
whose selectors all miss comes back as `""`, and when every body selector
misses the content falls back to the whole page's text, truncated. -/
theorem claim7_extractor_total (soup : Soup) (url : String) :
    (_extract_content soup url).url = url ∧
    ((∀ s ∈ NEWS_CONTENT_SELECTORS_title, noText soup s) →
      (_extract_content soup url).title = "") ∧
    ((∀ s ∈ NEWS_CONTENT_SELECTORS_time, noText soup s) →
      (_extract_content soup url).publish_time = "") ∧
    ((∀ s ∈ NEWS_CONTENT_SELECTORS_body, noText soup s) →
      (_extract_content soup url).content = pyTruncate soup.pageText) := by
  refine ⟨rfl, fun h => ?_, fun h => ?_, fun h => ?_⟩
  · simpa [_extract_content] using pick_eq_empty soup _ h
  · simpa [_extract_content] using pick_eq_empty soup _ h
  · have hb := pick_eq_empty soup _ h
    simp [_extract_content, rawContent, hb]

def soupBare : Soup := ⟨fun _ => [], fun _ => none, "no recognized structure"⟩

/-- Witness for C7 on a document matching no selector at all. -/
theorem claim7_extractor_instance :
    (_extract_content soupBare "https://x.edu/p").title = "" ∧
    (_extract_content soupBare "https://x.edu/p").publish_time = "" ∧
    (_extract_content soupBare "https://x.edu/p").content = pyTruncate soupBare.pageText :=
  ⟨(claim7_extractor_total soupBare "https://x.edu/p").2.1 (fun _ _ => Or.inl rfl),
   (claim7_extractor_total soupBare "https://x.edu/p").2.2.1 (fun _ _ => Or.inl rfl),
   (claim7_extractor_total soupBare "https://x.edu/p").2.2.2 (fun _ _ => Or.inl rfl)⟩

/-- Claim C5: every pair `_extract_links` returns has a URL with both a
scheme and a host (`_is_valid_url`); anything resolving without them was
dropped, since only pairs passing the check are collected. -/
theorem claim5_links_valid (soup : Soup) (base_url : String) :
    ∀ p ∈ _extract_links soup base_url, _is_valid_url p.1 = true := by
  intro p hp
  unfold _extract_links at hp
  rw [List.mem_dedup, List.mem_flatMap] at hp
  obtain ⟨sel, _, hmem⟩ := hp
  rw [List.mem_filterMap] at hmem
  obtain ⟨a, _, ha⟩ := hmem
  exact anchor_link_valid base_url a p ha

def soupTwoAnchors : Soup :=
  ⟨fun sel =>
     if sel = "a[href*=\"news\"]" then [⟨some "/news/1.html", "News 1"⟩]
     else if sel = ".news-list a" then [⟨some "javascript:void(0)", "more"⟩]
     else [],
   fun _ => none, ""⟩

/-- Witness for C5 at the spec's examples: `"/news/1.html"` against
`"https://x.edu/"` resolves to `"https://x.edu/news/1.html"` and is kept
with scheme and host; `"javascript:void(0)"` is discarded. -/
theorem claim5_links_instance :
    ("https://x.edu/news/1.html", "News 1") ∈ _extract_links soupTwoAnchors "https://x.edu/" ∧
    _is_valid_url "https://x.edu/news/1.html" = true ∧
    ("javascript:void(0)", "more") ∉ _extract_links soupTwoAnchors "https://x.edu/" :=
  ⟨by decide,
   claim5_links_valid soupTwoAnchors "https://x.edu/"
     ("https://x.edu/news/1.html", "News 1") (by decide),
   by decide⟩

/-- In a duplicate-free list every member is counted exactly once. -/
theorem count_one_of_nodup_mem [BEq α] [LawfulBEq α] :
    ∀ {l : List α} {a : α}, l.Nodup → a ∈ l → l.count a = 1
  | [], _, _, ha => absurd ha (by simp)
  | b :: tl, a, h, ha => by
    rw [List.count_cons]
    rcases List.mem_cons.1 ha with rfl | hmem
    · rw [List.count_eq_zero.2 (List.nodup_cons.1 h).1]
      simp
    · have hne : a ≠ b := by
        rintro rfl
        exact (List.nodup_cons.1 h).1 hmem
      rw [count_one_of_nodup_mem (List.nodup_cons.1 h).2 hmem]
      simp [hne, hne.symm]

/-- Claim C8: `_extract_links` never returns duplicate pairs — its result
is duplicate-free, so every member occurs exactly once. -/
theorem claim8_links_nodup (soup : Soup) (base_url : String) :
    (_extract_links soup base_url).Nodup ∧
    ∀ p ∈ _extract_links soup base_url, (_extract_links soup base_url).count p = 1 := by
  unfold _extract_links
  exact ⟨List.nodup_dedup _,
    fun p hp => count_one_of_nodup_mem (List.nodup_dedup _) hp⟩

def soupDupAnchors : Soup :=
  ⟨fun sel =>
     if sel = "a[href*=\"news\"]" then
       [⟨some "/news/a.html", "合作新闻"⟩, ⟨some "/news/a.html", "合作新闻"⟩]
     else [],
   fun _ => none, ""⟩

/-- Witness for C8: two identical anchors yield one pair, counted once. -/
theorem claim8_links_instance :
    ("https://x.edu/news/a.html", "合作新闻") ∈ _extract_links soupDupAnchors "https://x.edu/" ∧
    (_extract_links soupDupAnchors "https://x.edu/").count
      ("https://x.edu/news/a.html", "合作新闻") = 1 :=
  ⟨by decide,
   (claim8_links_nodup soupDupAnchors "https://x.edu/").2
     ("https://x.edu/news/a.html", "合作新闻") (by decide)⟩

/-- Claim C1: with a non-negative cap (the spec's config invariant), a site
crawl visits at most `max_per_site` candidates and so produces at most
that many rows; when at least `max_per_site` filtered candidates exist and
every one of them is fetchable, exactly `max_per_site` rows come out. -/
theorem claim1_crawl_site_cap (w : World) (keywords : List String) (cfg : CrawlConfig)
    (name base_url : String) (hcap : 0 ≤ cfg.max_per_site) :
    ((site_visited w keywords cfg base_url).length : Int) ≤ cfg.max_per_site ∧
    ((crawl_site w keywords cfg name base_url).length : Int) ≤ cfg.max_per_site ∧
    ((∀ p ∈ site_filtered w keywords base_url, (w.fetch p.1).isSome) →
      cfg.max_per_site ≤ ((site_filtered w keywords base_url).length : Int) →
      ((crawl_site w keywords cfg name base_url).length : Int) = cfg.max_per_site) := by
  have hv : site_visited w keywords cfg base_url =
      (site_filtered w keywords base_url).take cfg.max_per_site.toNat := by
    simp [site_visited, pySlice, if_pos hcap]
  have hlen1 : ((site_visited w keywords cfg base_url).length : Int) ≤ cfg.max_per_site := by
    rw [hv, List.length_take]
    omega
  have hle : (crawl_site w keywords cfg name base_url).length ≤
      (site_visited w keywords cfg base_url).length :=
    List.length_filterMap_le _ _
  refine ⟨hlen1, by omega, fun hall hfl => ?_⟩
  have hsome : ∀ p ∈ site_visited w keywords cfg base_url,
      (visit_candidate w name p).isSome := by
    intro p hp
    refine visit_candidate_isSome w name p (hall p ?_)
    rw [hv] at hp
    exact List.take_subset _ _ hp
  have heq := length_filterMap_of_isSome (visit_candidate w name) _ hsome
  unfold crawl_site
  rw [heq, hv, List.length_take]
  omega

def htmlHomeA : String := "<html>home page with cooperation links</html>"

def htmlArtA : String := "<html><h1>Cooperation news</h1></html>"

def soupHomeA : Soup :=
  ⟨fun sel =>
     if sel = "a[href*=\"news\"]" then
       [⟨some "/news/1.html", "cooperation 1"⟩,
        ⟨some "/news/2.html", "cooperation 2"⟩,
        ⟨some "/news/3.html", "cooperation 3"⟩]
     else [],
   fun _ => none, ""⟩

def soupArtA : Soup :=
  ⟨fun _ => [],
   fun sel => if sel = "h1" then some "Cooperation news" else none,
   "Cooperation body"⟩

def worldA : World :=
  ⟨fun url =>
     if url = "https://x.edu/" then some htmlHomeA
     else if url = "https://x.edu/news/1.html" then some htmlArtA
     else if url = "https://x.edu/news/2.html" then some htmlArtA
     else if url = "https://x.edu/news/3.html" then some htmlArtA
     else none,
   fun html =>
     if html = htmlHomeA then soupHomeA
     else if html = htmlArtA then soupArtA
     else ⟨fun _ => [], fun _ => none, ""⟩,
   "2026-10-12 00:00:00"⟩

def cfgCapTwo : CrawlConfig := { max_per_site := 2 }

/-- Witness for C1: three keyword-matching fetchable candidates, cap 2,
exactly 2 rows. -/
theorem claim1_cap_instance :
    ((site_visited worldA DEFAULT_KEYWORDS cfgCapTwo "https://x.edu/").length : Int) ≤
      cfgCapTwo.max_per_site ∧
    ((crawl_site worldA DEFAULT_KEYWORDS cfgCapTwo "X大学" "https://x.edu/").length : Int) ≤
      cfgCapTwo.max_per_site ∧
    ((crawl_site worldA DEFAULT_KEYWORDS cfgCapTwo "X大学" "https://x.edu/").length : Int) =
      cfgCapTwo.max_per_site :=
  have h := claim1_crawl_site_cap worldA DEFAULT_KEYWORDS cfgCapTwo "X大学" "https://x.edu/"
    (by decide)
  ⟨h.1, h.2.1, h.2.2 (by decide) (by decide)⟩

/-- Claim C2: the orchestrator loop is failure-isolating — whatever each
site's crawl does, the final row sequence is the concatenation of every
site's rows (so an error on one site never suppresses another site's
rows), and every unhandled per-site error is logged with the site name. -/
theorem claim2_orchestrator_isolation (sc : String → String → List Row × Option String)
    (sites : List (String × String)) :
    (crawl_loop sc sites).1 = (sites.map fun p => (sc p.1 p.2).1).flatten ∧
    ∀ p ∈ sites, ∀ e, (sc p.1 p.2).2 = some e →
      ("Error on " ++ p.1 ++ ": " ++ e) ∈ (crawl_loop sc sites).2 :=
  ⟨crawl_loop_rows sc sites, crawl_loop_log sc sites⟩

def rowB : Row :=
  ⟨"B大学", "合作新闻", "", "正文", "https://b.edu/news/1.html", "合作", "2026-10-12 00:00:00"⟩

def scFirstRaises : String → String → List Row × Option String :=
  fun name _ => if name = "A大学" then ([], some "boom") else ([rowB], none)

def sitesAB : List (String × String) :=
  [("A大学", "https://a.edu/"), ("B大学", "https://b.edu/")]

/-- Witness for C2: the first site raises, the second site's row still
appears, and the error is logged with the first site's name. -/
theorem claim2_isolation_instance :
    (crawl_loop scFirstRaises sitesAB).1 = [rowB] ∧
    ("Error on " ++ "A大学" ++ ": " ++ "boom") ∈ (crawl_loop scFirstRaises sitesAB).2 :=
  have h := claim2_orchestrator_isolation scFirstRaises sitesAB
  ⟨by rw [h.1]; decide,
   h.2 ("A大学", "https://a.edu/") (by decide) "boom" (by decide)⟩

/-- Counterexample to C6 as stated: `CrawlConfig` construction performs no
validation — the exact construction `cli.py` does, given `--timeout 0`,
yields a config violating `timeout > 0`, and the pipeline would use it. -/
theorem claim6_invariant_cex : ¬ configInvariant (mkConfigFromArgs 0 1 3 10) := by
  decide

/-- Claim C6 (amended): the default-constructed `CrawlConfig` satisfies the
invariant, and `mkConfigFromArgs` passes its arguments through unvalidated,
so the constructed config satisfies the invariant exactly when the
arguments already do. -/
theorem claim6_default_invariant :
    configInvariant {} ∧
    ∀ (t : Int) (dmin dmax : Rat) (mps : Int),
      configInvariant (mkConfigFromArgs t dmin dmax mps) ↔
        (dmin ≤ dmax ∧ 0 ≤ dmax ∧ 0 < t ∧ 0 ≤ mps) :=
  ⟨by decide, fun _ _ _ _ => Iff.rfl⟩

def htmlHomeE : String :=
  "<html><body><a href=\"/news/coop.html\">产学研签约合作</a></body></html>"

def htmlArtE : String :=
  "<html><h1>产学研签约合作新闻</h1><div class=\"content\">正文</div></html>"

def soupHomeE : Soup :=
  ⟨fun sel =>
     if sel = "a[href*=\"news\"]" then [⟨some "/news/coop.html", "产学研签约合作"⟩]
     else [],
   fun _ => none, "产学研签约合作"⟩

def soupArtE : Soup :=
  ⟨fun _ => [],
   fun sel =>
     if sel = "h1" then some "产学研签约合作新闻"
     else if sel = ".content" then some "正文"
     else none,
   "产学研签约合作新闻正文"⟩

def worldE : World :=
  ⟨fun url =>
     if url = "https://x.edu/" then some htmlHomeE
     else if url = "https://x.edu/news/coop.html" then some htmlArtE
     else none,
   fun html =>
     if html = htmlHomeE then soupHomeE
     else if html = htmlArtE then soupArtE
     else ⟨fun _ => [], fun _ => none, ""⟩,
   "2026-10-12 00:00:00"⟩

def cfgCapFive : CrawlConfig := { max_per_site := 5 }

/-- Claim C9: end-to-end, one site whose homepage holds one matching
anchor, `max_per_site = 5`: exactly one row, with the site's name as
university and the resolved absolute URL. -/
theorem claim9_end_to_end :
    crawl worldE DEFAULT_KEYWORDS cfgCapFive [("X大学", "https://x.edu/")] none =
      [{ university := "X大学", title := "产学研签约合作新闻", publish_time := "",
         content := "正文", url := "https://x.edu/news/coop.html",
         link_text := "产学研签约合作", crawl_time := "2026-10-12 00:00:00" }] := by
  decide

/-- Claim C10: calling `crawl` with an empty sites mapping is the same as
calling it with no argument — `sites or self.sites` tests truthiness, so
both fall back to the instance's configured sites. -/
theorem claim10_empty_sites_fallback (w : World) (keywords : List String)
    (cfg : CrawlConfig) (self_sites : List (String × String)) :
    crawl w keywords cfg self_sites (some []) = crawl w keywords cfg self_sites none ∧
    crawl w keywords cfg self_sites (some []) =
      (self_sites.map fun p => crawl_site w keywords cfg p.1 p.2).flatten := by
  constructor
  · rfl
  · unfold crawl
    rw [show crawl_target self_sites (some []) = self_sites from rfl, crawl_loop_rows]

end UniNews
